import Mathlib

/-!
Shallow embedding of the `porcupine` crate (a safe wrapper around the
graphical parts of Win32) and proofs about the claims of its specification.

Conventions of the embedding:
* A Win32 `WCHAR` (`u16` code unit) is a `Nat`; a Rust `String` is a list of
  Unicode scalar values (`List Nat`).
* Opaque native handles (`HWND`, `HDC`, `HBITMAP`, raw pointers) are `Nat`
  tokens; the null pointer is `0`.
* Foreign calls are reified as constructors of a call inductive; an
  environment function `env : GdiCall → Nat` supplies the value returned by
  the platform for each call, and operations return the list of calls they
  issued (their trace) alongside their Rust-level result.
* `Drop` implementations are embedded as functions from the dropped value to
  the trace of foreign calls performed during teardown, together with a flag
  recording whether the drop panicked.
-/

namespace Porcupine

/-- Win32 functions that are capable of erroring out (src/error.rs,
`enum Win32Function`).  The variants are those of `error.rs`; the
`SetWindowLongPtrA` variant referenced by `window.rs` callers is included as
well. -/
inductive Win32Function where
  | MultiByteToWideChar
  | WideCharToMultiByte
  | GetModuleHandleExW
  | UnregisterClassW
  | RegisterClassExW
  | GetClassInfoExW
  | CreateWindowExW
  | GetWindowPlacement
  | SetWindowPlacement
  | SetWindowTextW
  | InvalidateRect
  | MoveToEx
  | LineTo
  | SetDCBrushColor
  | SetDCPenColor
  | Arc
  | SetArcDirection
  | Rectangle
  | Ellipse
  | ShowWindow
  | UpdateWindow
  | CreateCompatibleBitmap
  | BeginPaint
  | CreateCompatibleDC
  | CreateBitmap
  | GetObjectW
  | SetWindowLongPtrA
  | Other (name : String)
  deriving DecidableEq, Repr

/-- The error used by the Porcupine API (src/error.rs, `enum Error`).
Rust `String` payloads are modelled as lists of Unicode scalar values. -/
inductive Error where
  | Unreachable
  | StaticMsg (msg : String)
  | Win32 (code : Nat) (message : List Nat) (function : Win32Function)
  | Utf16
  | WideStringNul
  | LpcwstrFailed
  | ExpiredWeakPtr
  | NoGDIStorage
  | AlreadyHadGDIStorage
  deriving DecidableEq, Repr

/-! ## Wide strings (src/string.rs) -/

/-- An owned wide string (src/string.rs, `struct WString`): the boxed slice
of `WCHAR` code units, including the appended terminator. -/
structure WString where
  inner : List Nat
  deriving DecidableEq, Repr

/-- `WString::from_vec_unchecked`: push a terminating zero. -/
def WString.from_vec_unchecked (v : List Nat) : WString :=
  ⟨v ++ [0]⟩

/-- `WString::new` (src/string.rs:85-126): reject the input when a zero code
unit occurs anywhere in it (the source scans the reversed vector), otherwise
append the terminator. -/
def WString.new (v : List Nat) : Except Error WString :=
  if v.reverse.any (fun x => x == 0) then
    .error .WideStringNul
  else
    .ok (WString.from_vec_unchecked v)

/-- `WString::as_bytes`: the code units including the terminator. -/
def WString.as_bytes (w : WString) : List Nat :=
  w.inner

namespace WStr

/-- `WStr::from_bytes` (src/string.rs:289-295): the implementation rejects
the slice when ANY code unit (the trailing one included) is zero, and
otherwise borrows the slice as-is. -/
def from_bytes (bytes : List Nat) : Except Error (List Nat) :=
  if bytes.reverse.any (fun x => x == 0) then
    .error .WideStringNul
  else
    .ok bytes

/-- `WStr::to_bytes`: identity on the borrowed code units. -/
def to_bytes (bytes : List Nat) : List Nat :=
  bytes

/-- `WStr::to_bytes_no_nul`: all code units but the last. -/
def to_bytes_no_nul (bytes : List Nat) : List Nat :=
  (to_bytes bytes).dropLast

end WStr

/-! UTF-16 decoding as performed by Rust's `String::from_utf16` /
`String::from_utf16_lossy` (`char::decode_utf16`), which `WStr::into_string`
and `WStr::into_string_lossy` delegate to. -/

/-- Strict UTF-16 decode: a non-surrogate unit is a scalar; a high surrogate
must be followed by a low surrogate; anything else is an error. -/
def decodeUtf16 : List Nat → Except Error (List Nat)
  | [] => .ok []
  | [u] =>
    if u < 0xD800 ∨ 0xDFFF < u then
      (decodeUtf16 []).map (fun s => u :: s)
    else
      .error .Utf16
  | u :: u2 :: rest =>
    if u < 0xD800 ∨ 0xDFFF < u then
      (decodeUtf16 (u2 :: rest)).map (fun s => u :: s)
    else if u ≤ 0xDBFF then
      if 0xDC00 ≤ u2 ∧ u2 ≤ 0xDFFF then
        (decodeUtf16 rest).map
          (fun s => (0x10000 + (u - 0xD800) * 0x400 + (u2 - 0xDC00)) :: s)
      else
        .error .Utf16
    else
      .error .Utf16

/-- Lossy UTF-16 decode: each ill-formed unit becomes U+FFFD. -/
def decodeUtf16Lossy : List Nat → List Nat
  | [] => []
  | [u] =>
    if u < 0xD800 ∨ 0xDFFF < u then
      u :: decodeUtf16Lossy []
    else
      0xFFFD :: decodeUtf16Lossy []
  | u :: u2 :: rest =>
    if u < 0xD800 ∨ 0xDFFF < u then
      u :: decodeUtf16Lossy (u2 :: rest)
    else if u ≤ 0xDBFF then
      if 0xDC00 ≤ u2 ∧ u2 ≤ 0xDFFF then
        (0x10000 + (u - 0xD800) * 0x400 + (u2 - 0xDC00)) :: decodeUtf16Lossy rest
      else
        0xFFFD :: decodeUtf16Lossy (u2 :: rest)
    else
      0xFFFD :: decodeUtf16Lossy (u2 :: rest)

/-- `WStr::into_string` (src/string.rs:319-321): strict decode of the code
units with the final one dropped. -/
def WStr.into_string (bytes : List Nat) : Except Error (List Nat) :=
  decodeUtf16 (WStr.to_bytes_no_nul bytes)

/-- `WStr::into_string_lossy` (src/string.rs:314-316). -/
def WStr.into_string_lossy (bytes : List Nat) : List Nat :=
  decodeUtf16Lossy (WStr.to_bytes_no_nul bytes)

/-- `WString::into_string` goes through `Deref` to the `WStr` over
`as_bytes` (terminator included). -/
def WString.into_string (w : WString) : Except Error (List Nat) :=
  WStr.into_string w.as_bytes

/-- `WString::into_string_lossy` through the same deref. -/
def WString.into_string_lossy (w : WString) : List Nat :=
  WStr.into_string_lossy w.as_bytes

/-- A Unicode scalar value: in range and not a surrogate. -/
def IsScalarValue (c : Nat) : Prop :=
  c < 0x110000 ∧ (c < 0xD800 ∨ 0xDFFF < c)

instance (c : Nat) : Decidable (IsScalarValue c) := by
  unfold IsScalarValue; infer_instance

/-- UTF-16 encoding of a sequence of Unicode scalar values, as performed by
Rust's `str::encode_utf16` (the claim's `encode` direction; this is the host
language's encoder, not repository code). -/
def encodeUtf16 (s : List Nat) : List Nat :=
  s.flatMap fun c =>
    if c < 0x10000 then
      [c]
    else
      [0xD800 + (c - 0x10000) / 0x400, 0xDC00 + (c - 0x10000) % 0x400]

/-! ### Round-trip lemmas for the UTF-16 codec -/

theorem decodeUtf16_cons_nonsurrogate (c : Nat) (L : List Nat)
    (hc : c < 0xD800 ∨ 0xDFFF < c) :
    decodeUtf16 (c :: L) = (decodeUtf16 L).map (fun s => c :: s) := by
  cases L with
  | nil => simp [decodeUtf16, hc]
  | cons u2 rest => simp [decodeUtf16, hc]

theorem decodeUtf16_cons_pair (u u2 : Nat) (L : List Nat)
    (hu : 0xD800 ≤ u ∧ u ≤ 0xDBFF) (hu2 : 0xDC00 ≤ u2 ∧ u2 ≤ 0xDFFF) :
    decodeUtf16 (u :: u2 :: L) =
      (decodeUtf16 L).map
        (fun s => (0x10000 + (u - 0xD800) * 0x400 + (u2 - 0xDC00)) :: s) := by
  have h1 : ¬(u < 0xD800 ∨ 0xDFFF < u) := by omega
  simp [decodeUtf16, h1, hu.2, hu2.1, hu2.2]

theorem decodeUtf16Lossy_cons_nonsurrogate (c : Nat) (L : List Nat)
    (hc : c < 0xD800 ∨ 0xDFFF < c) :
    decodeUtf16Lossy (c :: L) = c :: decodeUtf16Lossy L := by
  cases L with
  | nil => simp [decodeUtf16Lossy, hc]
  | cons u2 rest => simp [decodeUtf16Lossy, hc]

theorem decodeUtf16Lossy_cons_pair (u u2 : Nat) (L : List Nat)
    (hu : 0xD800 ≤ u ∧ u ≤ 0xDBFF) (hu2 : 0xDC00 ≤ u2 ∧ u2 ≤ 0xDFFF) :
    decodeUtf16Lossy (u :: u2 :: L) =
      (0x10000 + (u - 0xD800) * 0x400 + (u2 - 0xDC00)) :: decodeUtf16Lossy L := by
  have h1 : ¬(u < 0xD800 ∨ 0xDFFF < u) := by omega
  simp [decodeUtf16Lossy, h1, hu.2, hu2.1, hu2.2]

theorem encodeUtf16_nil : encodeUtf16 [] = [] := rfl

theorem encodeUtf16_cons (c : Nat) (s : List Nat) :
    encodeUtf16 (c :: s) =
      (if c < 0x10000 then [c]
       else [0xD800 + (c - 0x10000) / 0x400, 0xDC00 + (c - 0x10000) % 0x400])
        ++ encodeUtf16 s := by
  simp [encodeUtf16]

theorem decodeUtf16_encodeUtf16 (s : List Nat)
    (hs : ∀ c ∈ s, IsScalarValue c) :
    decodeUtf16 (encodeUtf16 s) = .ok s := by
  induction s with
  | nil => simp [encodeUtf16_nil, decodeUtf16]
  | cons c s ih =>
    have hc : IsScalarValue c := hs c (List.mem_cons_self c s)
    have ih2 := ih (fun x hx => hs x (List.mem_cons_of_mem c hx))
    rw [encodeUtf16_cons]
    by_cases hsmall : c < 0x10000
    · rw [if_pos hsmall, List.singleton_append,
        decodeUtf16_cons_nonsurrogate c _ hc.2, ih2]
      rfl
    · rw [if_neg hsmall]
      have hu : 0xD800 ≤ 0xD800 + (c - 0x10000) / 0x400 ∧
          0xD800 + (c - 0x10000) / 0x400 ≤ 0xDBFF := by
        have := hc.1
        omega
      have hu2 : 0xDC00 ≤ 0xDC00 + (c - 0x10000) % 0x400 ∧
          0xDC00 + (c - 0x10000) % 0x400 ≤ 0xDFFF := by
        omega
      rw [List.cons_append, List.cons_append, List.nil_append,
        decodeUtf16_cons_pair _ _ _ hu hu2, ih2]
      have hval : 0x10000 + (c - 0x10000) / 0x400 * 0x400 +
          (c - 0x10000) % 0x400 = c := by
        omega
      simp [hval]
      rfl

theorem decodeUtf16Lossy_encodeUtf16 (s : List Nat)
    (hs : ∀ c ∈ s, IsScalarValue c) :
    decodeUtf16Lossy (encodeUtf16 s) = s := by
  induction s with
  | nil => simp [encodeUtf16_nil, decodeUtf16Lossy]
  | cons c s ih =>
    have hc : IsScalarValue c := hs c (List.mem_cons_self c s)
    have ih2 := ih (fun x hx => hs x (List.mem_cons_of_mem c hx))
    rw [encodeUtf16_cons]
    by_cases hsmall : c < 0x10000
    · rw [if_pos hsmall, List.singleton_append,
        decodeUtf16Lossy_cons_nonsurrogate c _ hc.2, ih2]
    · rw [if_neg hsmall]
      have hu : 0xD800 ≤ 0xD800 + (c - 0x10000) / 0x400 ∧
          0xD800 + (c - 0x10000) / 0x400 ≤ 0xDBFF := by
        have := hc.1
        omega
      have hu2 : 0xDC00 ≤ 0xDC00 + (c - 0x10000) % 0x400 ∧
          0xDC00 + (c - 0x10000) % 0x400 ≤ 0xDFFF := by
        omega
      rw [List.cons_append, List.cons_append, List.nil_append,
        decodeUtf16Lossy_cons_pair _ _ _ hu hu2, ih2]
      have hval : 0x10000 + (0xD800 + (c - 0x10000) / 0x400 - 0xD800) * 0x400 +
          (0xDC00 + (c - 0x10000) % 0x400 - 0xDC00) = c := by
        omega
      rw [hval]

theorem encodeUtf16_ne_zero (s : List Nat) (h0 : 0 ∉ s) :
    ∀ u ∈ encodeUtf16 s, u ≠ 0 := by
  induction s with
  | nil => simp [encodeUtf16_nil]
  | cons c s ih =>
    intro u hu
    rw [encodeUtf16_cons] at hu
    rcases List.mem_append.mp hu with h | h
    · by_cases hsmall : c < 0x10000
      · rw [if_pos hsmall, List.mem_singleton] at h
        intro hz
        have hc0 : c = 0 := by omega
        apply h0
        rw [hc0]
        exact List.mem_cons_self 0 s
      · rw [if_neg hsmall] at h
        simp only [List.mem_cons, List.mem_singleton, List.not_mem_nil,
          or_false] at h
        rcases h with h | h <;> omega
    · exact ih (fun hm => h0 (List.mem_cons_of_mem c hm)) u h

theorem WString.new_of_no_zero (v : List Nat) (h : ∀ u ∈ v, u ≠ 0) :
    WString.new v = .ok ⟨v ++ [0]⟩ := by
  unfold WString.new
  rw [if_neg]
  · rfl
  · intro hany
    rw [List.any_eq_true] at hany
    obtain ⟨u, hu, hu0⟩ := hany
    rw [List.mem_reverse] at hu
    exact h u hu (by simpa using hu0)

theorem WStr.to_bytes_no_nul_append_zero (v : List Nat) :
    WStr.to_bytes_no_nul (v ++ [0]) = v := by
  unfold WStr.to_bytes_no_nul WStr.to_bytes
  simp

/-- C6: for every Unicode scalar-valued string `s` containing no null
character, `WString::new` on the UTF-16 encoding of `s` succeeds, the strict
`into_string` decode round-trips back to `Ok(s)`, and the lossy decode of the
same `WString` also yields `s`. -/
theorem wstring_new_into_string_roundtrip (s : List Nat)
    (hs : ∀ c ∈ s, IsScalarValue c) (h0 : 0 ∉ s) :
    ∃ w : WString, WString.new (encodeUtf16 s) = .ok w ∧
      w.into_string = .ok s ∧
      w.into_string_lossy = s := by
  refine ⟨⟨encodeUtf16 s ++ [0]⟩, ?_, ?_, ?_⟩
  · exact WString.new_of_no_zero _ (encodeUtf16_ne_zero s h0)
  · unfold WString.into_string WStr.into_string WString.as_bytes
    rw [WStr.to_bytes_no_nul_append_zero]
    exact decodeUtf16_encodeUtf16 s hs
  · unfold WString.into_string_lossy WStr.into_string_lossy WString.as_bytes
    rw [WStr.to_bytes_no_nul_append_zero]
    exact decodeUtf16Lossy_encodeUtf16 s hs

/-- Witness for C6 at the concrete string "Hi𐐷" (U+0048, U+0069, U+10437;
the last scalar exercises the surrogate-pair path). -/
theorem wstring_new_into_string_roundtrip_witness :
    (∀ c ∈ ([0x48, 0x69, 0x10437] : List Nat), IsScalarValue c) ∧
      (0 ∉ ([0x48, 0x69, 0x10437] : List Nat)) ∧
      ∃ w : WString,
        WString.new (encodeUtf16 [0x48, 0x69, 0x10437]) = .ok w ∧
          w.into_string = .ok [0x48, 0x69, 0x10437] ∧
          w.into_string_lossy = [0x48, 0x69, 0x10437] :=
  ⟨by decide, by decide,
    wstring_new_into_string_roundtrip [0x48, 0x69, 0x10437]
      (by decide) (by decide)⟩

/-- C1 (code bug): `WStr::from_bytes` rejects the pre-terminated slice
`[65, 0]` (a null terminator and no other null), although the claim says such
slices are exactly the accepted ones, and it accepts the unterminated slice
`[65, 66]`, which the claim says must fail. -/
theorem wstr_from_bytes_rejects_terminated_accepts_unterminated :
    WStr.from_bytes [65, 0] = .error .WideStringNul ∧
      WStr.from_bytes [65, 66] = .ok [65, 66] := by
  constructor <;> rfl

/-! ## Foreign calls and the error constructor (src/error.rs) -/

/-- Reified foreign (GDI/USER) calls issued by the embedded operations. -/
inductive GdiCall where
  | selectObject (hdc obj : Nat)
  | deleteDC (hdc : Nat)
  | deleteObject (h : Nat)
  | endPaint (hwnd ps : Nat)
  | setDCBrushColor (hdc clr : Nat)
  | setDCPenColor (hdc clr : Nat)
  | createBitmap (width height : Int) (data : List Nat)
  | getObjectW (h : Nat)
  | createCompatibleDC (hdc : Nat)
  deriving DecidableEq, Repr

/-- The scalar values of an ASCII/host string, for the fixed fallback
messages of `win32_error`. -/
def strScalars (s : String) : List Nat :=
  s.data.map Char.toNat

/-- The platform's side of `win32_error`: the value `GetLastError` returns
and the wide characters `FormatMessageW` writes (`buffer = []` models a
failing `FormatMessageW`, whose return value is the written length). -/
structure ErrOracle where
  lastError : Nat
  buffer : List Nat
  deriving DecidableEq, Repr

/-- `win32_error` (src/error.rs:171-224): look up the last error code,
format its message, and wrap both with the operation tag; the `from_bytes`
null-check and the strict UTF-16 decode of the formatted buffer are
performed on the way, and their errors are returned directly. -/
def win32_error (eo : ErrOracle) (function : Win32Function) : Error :=
  if eo.lastError = 0 then
    .Win32 0 (strScalars "No error detected") function
  else if eo.buffer.length = 0 then
    .Win32 eo.lastError (strScalars "No error message detected") function
  else
    match WStr.from_bytes eo.buffer with
    | .error e => e
    | .ok b =>
      match WStr.into_string b with
      | .ok s => .Win32 eo.lastError s function
      | .error e => e

/-! ## Device contexts (src/dc.rs) -/

/-- GDI objects that can be stored in a device context
(src/dc.rs, `enum DeviceContextStorage`); the payload is the weak
(non-owning) reference to the bitmap's handle slot. -/
inductive DeviceContextStorage where
  | bitmap (wref : Nat)
  deriving DecidableEq, Repr

/-- Types of device contexts (src/dc.rs, `enum DeviceContextType`).  For
`Painter`, `owner` is the outcome of upgrading the weak window reference at
teardown time (`some hwnd` iff a strong owner is still alive), and
`paint_struct` is the opaque paint-session token. -/
inductive DeviceContextType where
  | painter (owner : Option Nat) (paint_struct : Nat)
  | ownsGDIObject (old_object : Option Nat) (storage : Option DeviceContextStorage)
  deriving DecidableEq, Repr

/-- A drawing context (src/dc.rs, `struct DeviceContext`). -/
structure DeviceContext where
  hdc : Nat
  kind : DeviceContextType
  deriving DecidableEq, Repr

/-- `Drop for DeviceContext` (src/dc.rs:98-129): for a painter, end the
paint against the owning window only when the weak reference upgrades; for a
GDI-owning (compatible) DC, select `old_object` back in when present, then
delete the DC.  No path of the source can fail or panic. -/
def DeviceContext.dropTrace (dc : DeviceContext) : List GdiCall :=
  match dc.kind with
  | .painter owner ps =>
    match owner with
    | some hwnd => [.endPaint hwnd ps]
    | none => []
  | .ownsGDIObject old _ =>
    (match old with
     | some o => [.selectObject dc.hdc o]
     | none => []) ++ [.deleteDC dc.hdc]

/-! ## Bitmaps (src/bitmap.rs) -/

/-- A bitmap (src/bitmap.rs, `struct Bitmap`): handle, the companion
compatible DC (`None` only on partially constructed values), the `BITMAP`
dimensions read back from the platform, and whether the handle's mutex is
poisoned at drop time (the source's `if let Ok` on `hbitmap.lock()`). -/
structure Bitmap where
  hbitmap : Nat
  owning_dc : Option DeviceContext
  bmWidth : Int
  bmHeight : Int
  poisoned : Bool
  deriving DecidableEq, Repr

/-- `Bitmap::weak_reference` (src/bitmap.rs:155-157). -/
def Bitmap.weak_reference (b : Bitmap) : Nat :=
  b.hbitmap

/-- `DeviceContext::set_bitmap` (src/dc.rs:192-216): painter DCs have no
GDI storage; a compatible DC whose `old_object` or `storage` is occupied
errors without touching the platform; otherwise the bitmap is selected in,
the displaced handle recorded in `old_object`, and a weak reference to the
bitmap recorded in `storage`. -/
def DeviceContext.set_bitmap (env : GdiCall → Nat) (dc : DeviceContext)
    (bitmap : Bitmap) : DeviceContext × List GdiCall × Except Error Unit :=
  match dc.kind with
  | .painter _ _ => (dc, [], .error .NoGDIStorage)
  | .ownsGDIObject old_object storage =>
    if old_object.isSome || storage.isSome then
      (dc, [], .error .AlreadyHadGDIStorage)
    else
      let call := GdiCall.selectObject dc.hdc bitmap.hbitmap
      let old_ptr := env call
      (⟨dc.hdc, .ownsGDIObject (some old_ptr)
          (some (.bitmap bitmap.weak_reference))⟩,
        [call], .ok ())

/-- `Drop for Bitmap` (src/bitmap.rs:69-78): `owning_dc.take().expect(..)`
panics when the companion DC is absent (partially constructed value);
otherwise the companion DC is dropped first, then — unless the handle's lock
is poisoned — the bitmap handle is deleted.  Returns (trace, panicked). -/
def Bitmap.dropRun (b : Bitmap) : List GdiCall × Bool :=
  match b.owning_dc with
  | none => ([], true)
  | some dc =>
    if b.poisoned then
      (dc.dropTrace, false)
    else
      (dc.dropTrace ++ [.deleteObject b.hbitmap], false)

/-- `Bitmap::from_dc_and_data` (src/bitmap.rs:82-127): create the native
bitmap, read its `BITMAP` data back, build the value with `owning_dc = None`,
then create the companion compatible DC and select the bitmap into it.  A
`?`-failure in either of the last two sub-steps drops the partially
constructed value, whose `Drop` panics.  `envObj` is the platform's
`GetObjectW` output (the authoritative width/height).  Returns
(result, trace, panicked). -/
def Bitmap.from_dc_and_data (env : GdiCall → Nat) (envObj : Nat → Int × Int)
    (eo : ErrOracle) (dc : DeviceContext) (width height : Int)
    (data : List Nat) : Except Error Bitmap × List GdiCall × Bool :=
  let cb := GdiCall.createBitmap width height data
  let hbitmap := env cb
  if hbitmap = 0 then
    (.error (win32_error eo .CreateBitmap), [cb], false)
  else
    let go := GdiCall.getObjectW hbitmap
    if env go = 0 then
      (.error (win32_error eo .GetObjectW), [cb, go], false)
    else
      let bm := envObj hbitmap
      let b0 : Bitmap := ⟨hbitmap, none, bm.1, bm.2, false⟩
      let cc := GdiCall.createCompatibleDC dc.hdc
      if env cc = 0 then
        (.error (win32_error eo .CreateCompatibleDC), [cb, go, cc], true)
      else
        let dc2 : DeviceContext := ⟨env cc, .ownsGDIObject none none⟩
        match DeviceContext.set_bitmap env dc2 b0 with
        | (dc2', calls, .ok _) =>
          (.ok ⟨hbitmap, some dc2', bm.1, bm.2, false⟩,
            [cb, go, cc] ++ calls, false)
        | (_, calls, .error e) =>
          (.error e, [cb, go, cc] ++ calls, true)

/-! ## Pen/brush colors (src/dc.rs:362-379) -/

/-- `wingdi::RGB` on three 8-bit channels. -/
def RGB (r g b : Nat) : Nat :=
  r % 256 + (g % 256) * 256 + (b % 256) * 65536

/-- `wingdi::CLR_INVALID`. -/
def CLR_INVALID : Nat := 0xFFFFFFFF

/-- `DeviceContext::set_brush_color` (src/dc.rs:362-369). -/
def DeviceContext.set_brush_color (env : GdiCall → Nat) (eo : ErrOracle)
    (dc : DeviceContext) (r g b : Nat) : List GdiCall × Except Error Unit :=
  let clr := RGB r g b
  let call := GdiCall.setDCBrushColor dc.hdc clr
  if env call = CLR_INVALID then
    ([call], .error (win32_error eo .SetDCBrushColor))
  else
    ([call], .ok ())

/-- `DeviceContext::set_pen_color` (src/dc.rs:372-379): the source invokes
`SetDCBrushColor` (dc.rs:374), the same platform call as `set_brush_color`,
while tagging the failure `SetDCPenColor`. -/
def DeviceContext.set_pen_color (env : GdiCall → Nat) (eo : ErrOracle)
    (dc : DeviceContext) (r g b : Nat) : List GdiCall × Except Error Unit :=
  let clr := RGB r g b
  let call := GdiCall.setDCBrushColor dc.hdc clr
  if env call = CLR_INVALID then
    ([call], .error (win32_error eo .SetDCPenColor))
  else
    ([call], .ok ())

/-! ## Windows (src/window.rs) -/

/-- The type-erased boxed payload attached to a window: `tag` models the
dynamic `TypeId` that `Box<dyn Any>::downcast` checks. -/
structure Payload where
  tag : Nat
  value : Nat
  deriving DecidableEq, Repr

/-- Events of window teardown and user-data manipulation. -/
inductive UserEvent where
  | clearSlot (hwnd : Nat)
  | readSlot (hwnd : Nat)
  | dropPayload (p : Option Payload)
  | destroyWindow (hwnd : Nat)
  deriving DecidableEq, Repr

/-- The state of a `Window` (src/window.rs, `struct Window`) together with
the platform's per-window `GWLP_USERDATA` slot: `userData = some p` iff the
slot holds a pointer to the live allocation `p`, `none` iff the slot is
null. -/
structure WindowState where
  hwnd : Nat
  userData : Option Payload
  has_user_data : Bool
  deriving DecidableEq, Repr

/-- `Drop for Window` (src/window.rs:627-640): when `has_user_data` is set,
read the slot back and drop the reconstructed box (`dropPayload none` marks
the undefined reconstruction from an empty slot); nothing else is done — in
particular no native window-destruction call is issued anywhere in the
source. -/
def WindowState.dropTrace (w : WindowState) : List UserEvent :=
  if w.has_user_data then
    [.readSlot w.hwnd, .dropPayload w.userData]
  else
    []

/-- `Window::take_user_data` (src/window.rs:590-611): clear the platform
slot via `SetWindowLongPtrA(.., null)` (which returns the previous value),
reset `has_user_data`, then reconstruct the box and downcast it; a failed
downcast drops the payload and returns a static-message error.  (When the
slot was already null and no platform error is reported, the source
reconstructs a `Box` from the null value — undefined behavior — modelled as
the downcast-failure arm it cannot distinguish.) -/
def Window.take_user_data (eo : ErrOracle) (t : Nat) (st : WindowState) :
    WindowState × List UserEvent × Except Error Payload :=
  let res := st.userData
  let st1 : WindowState := ⟨st.hwnd, none, false⟩
  if res = none ∧ eo.lastError ≠ 0 then
    (st1, [.clearSlot st.hwnd], .error (win32_error eo .SetWindowLongPtrA))
  else
    match res with
    | some p =>
      if p.tag = t then
        (st1, [.clearSlot st.hwnd], .ok p)
      else
        (st1, [.clearSlot st.hwnd, .dropPayload (some p)],
          .error (.StaticMsg "Unable to downcast user data"))
    | none =>
      (st1, [.clearSlot st.hwnd, .dropPayload none],
        .error (.StaticMsg "Unable to downcast user data"))

/-! ## Claim theorems -/

/-- C2 (code bug): `set_pen_color` issues a `SetDCBrushColor` platform call —
the very same trace as `set_brush_color` — and never issues the pen-color
call, although its error tag names `SetDCPenColor`. -/
theorem set_pen_color_issues_brush_call (env : GdiCall → Nat) (eo : ErrOracle)
    (dc : DeviceContext) (r g b : Nat) :
    (DeviceContext.set_pen_color env eo dc r g b).1 =
        [GdiCall.setDCBrushColor dc.hdc (RGB r g b)] ∧
      (DeviceContext.set_pen_color env eo dc r g b).1 =
        (DeviceContext.set_brush_color env eo dc r g b).1 ∧
      ∀ h c, GdiCall.setDCPenColor h c ∉
        (DeviceContext.set_pen_color env eo dc r g b).1 := by
  refine ⟨?_, ?_, fun h c => ?_⟩ <;>
    by_cases hc : env (GdiCall.setDCBrushColor dc.hdc (RGB r g b)) =
      CLR_INVALID <;>
    simp [DeviceContext.set_pen_color, DeviceContext.set_brush_color, hc]

/-- Witness for C2 at a concrete device context and color. -/
theorem set_pen_color_issues_brush_call_witness :
    (DeviceContext.set_pen_color (fun _ => 1) ⟨0, []⟩
        ⟨3, .ownsGDIObject none none⟩ 1 2 3).1 =
      [GdiCall.setDCBrushColor 3 (RGB 1 2 3)] ∧
    GdiCall.setDCPenColor 3 (RGB 1 2 3) ∉
      (DeviceContext.set_pen_color (fun _ => 1) ⟨0, []⟩
        ⟨3, .ownsGDIObject none none⟩ 1 2 3).1 :=
  ⟨(set_pen_color_issues_brush_call (fun _ => 1) ⟨0, []⟩
      ⟨3, .ownsGDIObject none none⟩ 1 2 3).1,
    (set_pen_color_issues_brush_call (fun _ => 1) ⟨0, []⟩
      ⟨3, .ownsGDIObject none none⟩ 1 2 3).2.2 3 (RGB 1 2 3)⟩

/-- A platform environment for C3: `CreateBitmap` yields handle 7,
`GetObjectW` succeeds, and `CreateCompatibleDC` fails (returns null). -/
def envFailCompatible : GdiCall → Nat := fun c =>
  match c with
  | .createCompatibleDC _ => 0
  | .createBitmap _ _ _ => 7
  | _ => 1

/-- C3 (code bug): when the companion-DC creation sub-step fails after the
native bitmap handle was created, `from_dc_and_data` panics while dropping
the partially constructed `Bitmap` (its `Drop` runs
`owning_dc.take().expect(..)` on `None`), and the bitmap handle is never
released; dropping a partially constructed `Bitmap` directly panics and
deletes nothing. -/
theorem bitmap_partial_drop_panics :
    (Bitmap.from_dc_and_data envFailCompatible (fun _ => (4, 4)) ⟨5, [70]⟩
        ⟨9, .ownsGDIObject none none⟩ 4 4 []).2.2 = true ∧
      GdiCall.deleteObject 7 ∉
        (Bitmap.from_dc_and_data envFailCompatible (fun _ => (4, 4)) ⟨5, [70]⟩
          ⟨9, .ownsGDIObject none none⟩ 4 4 []).2.1 ∧
      (Bitmap.dropRun ⟨7, none, 4, 4, false⟩).2 = true ∧
      (Bitmap.dropRun ⟨7, none, 4, 4, false⟩).1 = [] := by
  refine ⟨rfl, ?_, rfl, rfl⟩
  decide

/-- C4 counterexample: teardown of a `Window` without payload performs no
foreign call at all — in particular it does not destroy the native window
handle, and even with a payload attached no destruction call appears. -/
theorem window_drop_never_destroys_handle :
    WindowState.dropTrace ⟨5, none, false⟩ = [] ∧
      UserEvent.destroyWindow 5 ∉
        WindowState.dropTrace ⟨5, some ⟨1, 42⟩, true⟩ := by
  constructor
  · rfl
  · decide

/-- C4 (amended): when the last strong reference to a `Window` disappears,
teardown reclaims and drops the attached payload iff one was attached via
`set_user_data_box`, and performs no native window-handle destruction; with
no payload attached, teardown does nothing. -/
theorem window_drop_spec (w : WindowState) :
    (w.has_user_data = true →
      w.dropTrace = [.readSlot w.hwnd, .dropPayload w.userData]) ∧
      (w.has_user_data = false → w.dropTrace = []) ∧
      ∀ h, UserEvent.destroyWindow h ∉ w.dropTrace := by
  unfold WindowState.dropTrace
  refine ⟨fun hf => ?_, fun hf => ?_, fun h => ?_⟩
  · rw [if_pos hf]
  · rw [hf]
    rfl
  · split <;> simp

/-- Witness for C4's amended theorem at concrete windows. -/
theorem window_drop_spec_witness :
    WindowState.dropTrace ⟨5, some ⟨1, 42⟩, true⟩ =
        [.readSlot 5, .dropPayload (some ⟨1, 42⟩)] ∧
      WindowState.dropTrace ⟨6, none, false⟩ = [] ∧
      UserEvent.destroyWindow 5 ∉ WindowState.dropTrace ⟨5, some ⟨1, 42⟩, true⟩ :=
  ⟨(window_drop_spec ⟨5, some ⟨1, 42⟩, true⟩).1 rfl,
    (window_drop_spec ⟨6, none, false⟩).2.1 rfl,
    (window_drop_spec ⟨5, some ⟨1, 42⟩, true⟩).2.2 5⟩

/-- C5: `set_bitmap` fails with `NoGDIStorage` on a painter DC; on a
compatible DC with `old_object` or `storage` occupied it fails with
`AlreadyHadGDIStorage`, leaving the DC unchanged and issuing no platform
call; on an empty compatible DC it selects the bitmap in, records the
displaced handle in `old_object` and the weak bitmap reference in
`storage`. -/
theorem set_bitmap_spec (env : GdiCall → Nat) (dc : DeviceContext)
    (bmp : Bitmap) :
    (∀ owner ps, dc.kind = .painter owner ps →
      DeviceContext.set_bitmap env dc bmp = (dc, [], .error .NoGDIStorage)) ∧
      (∀ old st, dc.kind = .ownsGDIObject old st →
        (old.isSome ∨ st.isSome) →
        DeviceContext.set_bitmap env dc bmp =
          (dc, [], .error .AlreadyHadGDIStorage)) ∧
      (dc.kind = .ownsGDIObject none none →
        DeviceContext.set_bitmap env dc bmp =
          (⟨dc.hdc, .ownsGDIObject
              (some (env (.selectObject dc.hdc bmp.hbitmap)))
              (some (.bitmap bmp.weak_reference))⟩,
            [.selectObject dc.hdc bmp.hbitmap], .ok ())) := by
  refine ⟨fun owner ps hk => ?_, fun old st hk hocc => ?_, fun hk => ?_⟩
  · unfold DeviceContext.set_bitmap
    rw [hk]
  · have hb : (old.isSome || st.isSome) = true := by
      rcases hocc with h | h <;> simp [h]
    unfold DeviceContext.set_bitmap
    rw [hk]
    simp only [hb, if_true]
  · unfold DeviceContext.set_bitmap
    rw [hk]
    rfl

/-- Witness for C5: a painter DC, an occupied compatible DC and an empty
compatible DC, each at concrete values. -/
theorem set_bitmap_spec_witness :
    DeviceContext.set_bitmap (fun _ => 11) ⟨3, .painter (some 1) 0⟩
        ⟨7, none, 4, 4, false⟩ =
      (⟨3, .painter (some 1) 0⟩, [], .error .NoGDIStorage) ∧
    DeviceContext.set_bitmap (fun _ => 11) ⟨3, .ownsGDIObject (some 2) none⟩
        ⟨7, none, 4, 4, false⟩ =
      (⟨3, .ownsGDIObject (some 2) none⟩, [], .error .AlreadyHadGDIStorage) ∧
    DeviceContext.set_bitmap (fun _ => 11) ⟨3, .ownsGDIObject none none⟩
        ⟨7, none, 4, 4, false⟩ =
      (⟨3, .ownsGDIObject (some 11) (some (.bitmap 7))⟩,
        [.selectObject 3 7], .ok ()) :=
  ⟨(set_bitmap_spec (fun _ => 11) ⟨3, .painter (some 1) 0⟩
      ⟨7, none, 4, 4, false⟩).1 (some 1) 0 rfl,
    (set_bitmap_spec (fun _ => 11) ⟨3, .ownsGDIObject (some 2) none⟩
      ⟨7, none, 4, 4, false⟩).2.1 (some 2) none rfl (Or.inl rfl),
    (set_bitmap_spec (fun _ => 11) ⟨3, .ownsGDIObject none none⟩
      ⟨7, none, 4, 4, false⟩).2.2 rfl⟩

theorem deleteObject_not_mem_dropTrace (dc : DeviceContext) (h : Nat) :
    GdiCall.deleteObject h ∉ dc.dropTrace := by
  unfold DeviceContext.dropTrace
  match dc with
  | ⟨hdc, .painter owner ps⟩ => cases owner <;> simp
  | ⟨hdc, .ownsGDIObject old st⟩ => cases old <;> simp

/-- C7: whenever `Bitmap` teardown deletes the bitmap handle, the companion
compatible DC exists and its complete teardown trace strictly precedes the
deletion, which is the final event; the handle is never released while the
dependent DC is still alive. -/
theorem bitmap_teardown_order (b : Bitmap)
    (hmem : GdiCall.deleteObject b.hbitmap ∈ (Bitmap.dropRun b).1) :
    ∃ dc, b.owning_dc = some dc ∧
      (Bitmap.dropRun b).1 = dc.dropTrace ++ [GdiCall.deleteObject b.hbitmap] ∧
      (Bitmap.dropRun b).2 = false := by
  match hb : b with
  | ⟨hbm, none, w, hgt, pois⟩ =>
    rw [show (Bitmap.dropRun ⟨hbm, none, w, hgt, pois⟩).1 = [] from rfl] at hmem
    exact absurd hmem (List.not_mem_nil _)
  | ⟨hbm, some dc, w, hgt, pois⟩ =>
    refine ⟨dc, rfl, ?_⟩
    unfold Bitmap.dropRun at hmem ⊢
    cases pois with
    | true =>
      simp only [if_true] at hmem
      exact absurd hmem (deleteObject_not_mem_dropTrace dc hbm)
    | false =>
      exact ⟨rfl, rfl⟩

/-- Witness for C7 at a concrete fully constructed bitmap whose companion DC
holds a displaced object. -/
theorem bitmap_teardown_order_witness :
    GdiCall.deleteObject 7 ∈
        (Bitmap.dropRun
          ⟨7, some ⟨3, .ownsGDIObject (some 2) (some (.bitmap 7))⟩,
            4, 4, false⟩).1 ∧
      ∃ dc,
        (Bitmap.mk 7 (some ⟨3, .ownsGDIObject (some 2) (some (.bitmap 7))⟩)
            4 4 false).owning_dc = some dc ∧
        (Bitmap.dropRun
            ⟨7, some ⟨3, .ownsGDIObject (some 2) (some (.bitmap 7))⟩,
              4, 4, false⟩).1 =
          dc.dropTrace ++ [GdiCall.deleteObject 7] ∧
        (Bitmap.dropRun
            ⟨7, some ⟨3, .ownsGDIObject (some 2) (some (.bitmap 7))⟩,
              4, 4, false⟩).2 = false :=
  ⟨by decide,
    bitmap_teardown_order
      ⟨7, some ⟨3, .ownsGDIObject (some 2) (some (.bitmap 7))⟩, 4, 4, false⟩
      (by decide)⟩

/-- C8: painter-DC teardown ends the paint session iff the weak window
reference still upgrades (skipped silently otherwise, with no error channel
in the source's drop), and compatible-DC teardown restores `old_object` when
present and then deletes the DC handle. -/
theorem dc_teardown_spec (dc : DeviceContext) :
    (∀ owner ps, dc.kind = .painter owner ps →
      (∀ hwnd, owner = some hwnd → dc.dropTrace = [.endPaint hwnd ps]) ∧
      (owner = none → dc.dropTrace = [])) ∧
      (∀ old st, dc.kind = .ownsGDIObject old st →
        (∀ o, old = some o →
          dc.dropTrace = [.selectObject dc.hdc o, .deleteDC dc.hdc]) ∧
        (old = none → dc.dropTrace = [.deleteDC dc.hdc])) := by
  refine ⟨fun owner ps hk => ⟨fun hwnd ho => ?_, fun ho => ?_⟩,
    fun old st hk => ⟨fun o ho => ?_, fun ho => ?_⟩⟩ <;>
    subst ho <;> simp [DeviceContext.dropTrace, hk]

/-- Witness for C8: a live-window painter, an expired-window painter and a
compatible DC with a displaced object, at concrete values. -/
theorem dc_teardown_spec_witness :
    DeviceContext.dropTrace ⟨3, .painter (some 9) 2⟩ = [.endPaint 9 2] ∧
      DeviceContext.dropTrace ⟨4, .painter none 2⟩ = [] ∧
      DeviceContext.dropTrace ⟨5, .ownsGDIObject (some 8) none⟩ =
        [.selectObject 5 8, .deleteDC 5] :=
  ⟨((dc_teardown_spec ⟨3, .painter (some 9) 2⟩).1 (some 9) 2 rfl).1 9 rfl,
    ((dc_teardown_spec ⟨4, .painter none 2⟩).1 none 2 rfl).2 rfl,
    ((dc_teardown_spec ⟨5, .ownsGDIObject (some 8) none⟩).2 (some 8) none
      rfl).1 8 rfl⟩

/-- C9 counterexample: with last-error 5 and a formatted buffer whose
decodable part is a lone high surrogate, `win32_error` returns the secondary
`Utf16` decode error instead of a `Win32`-kind error. -/
theorem win32_error_returns_secondary_error :
    win32_error ⟨5, [0xD800, 65]⟩ .LineTo = Error.Utf16 := by
  decide

/-- C9 (amended): `win32_error` returns a `Win32`-kind error carrying the
native code and the given operation tag — the fixed "No error detected"
message when the platform reports no error, the fixed "No error message
detected" fallback when the message-formatting facility fails (empty
buffer), and the strict decode of the buffer (final unit dropped) when that
decode succeeds — except that when the formatted buffer contains a null code
unit the `WideStringNul` check error is returned in its place, and when the
strict UTF-16 decode fails, that secondary decode error is propagated in
place of the Win32 error. -/
theorem win32_error_spec (eo : ErrOracle) (f : Win32Function) :
    (eo.lastError = 0 →
      win32_error eo f = .Win32 0 (strScalars "No error detected") f) ∧
      (eo.lastError ≠ 0 → eo.buffer = [] →
        win32_error eo f =
          .Win32 eo.lastError (strScalars "No error message detected") f) ∧
      (eo.lastError ≠ 0 → eo.buffer ≠ [] → (∃ u ∈ eo.buffer, u = 0) →
        win32_error eo f = .WideStringNul) ∧
      (eo.lastError ≠ 0 → eo.buffer ≠ [] → (∀ u ∈ eo.buffer, u ≠ 0) →
        (∀ s, decodeUtf16 eo.buffer.dropLast = .ok s →
          win32_error eo f = .Win32 eo.lastError s f) ∧
        (∀ e, decodeUtf16 eo.buffer.dropLast = .error e →
          win32_error eo f = e)) := by
  have hlen_ne : eo.buffer ≠ [] → ¬eo.buffer.length = 0 := fun hb h =>
    hb (List.length_eq_zero.mp h)
  refine ⟨fun h0 => ?_, fun h0 hb => ?_, fun h0 hb hz => ?_,
    fun h0 hb hnz => ?_⟩
  · unfold win32_error
    rw [if_pos h0]
  · unfold win32_error
    rw [if_neg h0, if_pos (by rw [hb]; rfl)]
  · unfold win32_error
    rw [if_neg h0, if_neg (hlen_ne hb)]
    have hany : eo.buffer.reverse.any (fun x => x == 0) = true := by
      rw [List.any_eq_true]
      obtain ⟨u, hu, hu0⟩ := hz
      exact ⟨u, List.mem_reverse.mpr hu, by simp [hu0]⟩
    unfold WStr.from_bytes
    rw [if_pos hany]
  · unfold win32_error
    rw [if_neg h0, if_neg (hlen_ne hb)]
    have hany : eo.buffer.reverse.any (fun x => x == 0) = false := by
      rw [List.any_eq_false]
      intro u hu
      simpa using hnz u (List.mem_reverse.mp hu)
    unfold WStr.from_bytes
    rw [if_neg (by rw [hany]; exact Bool.false_ne_true)]
    refine ⟨fun s hs => ?_, fun e he => ?_⟩
    · show (match WStr.into_string eo.buffer with
        | .ok s => Error.Win32 eo.lastError s f
        | .error e => e) = _
      unfold WStr.into_string WStr.to_bytes_no_nul WStr.to_bytes
      rw [hs]
    · show (match WStr.into_string eo.buffer with
        | .ok s => Error.Win32 eo.lastError s f
        | .error e => e) = _
      unfold WStr.into_string WStr.to_bytes_no_nul WStr.to_bytes
      rw [he]

/-- Witness for C9's amended theorem, exercising all five outcomes at
concrete oracles: clean last-error, failed message formatting, a buffer
containing a null, a decodable buffer, and a buffer whose decodable part is
a lone high surrogate. -/
theorem win32_error_spec_witness :
    win32_error ⟨0, []⟩ .LineTo =
        .Win32 0 (strScalars "No error detected") .LineTo ∧
      win32_error ⟨5, []⟩ .LineTo =
        .Win32 5 (strScalars "No error message detected") .LineTo ∧
      win32_error ⟨5, [0, 65]⟩ .LineTo = .WideStringNul ∧
      win32_error ⟨5, [72, 105]⟩ .LineTo = .Win32 5 [72] .LineTo ∧
      win32_error ⟨5, [0xD800, 65]⟩ .MoveToEx = .Utf16 :=
  ⟨(win32_error_spec ⟨0, []⟩ .LineTo).1 rfl,
    (win32_error_spec ⟨5, []⟩ .LineTo).2.1 (by decide) rfl,
    (win32_error_spec ⟨5, [0, 65]⟩ .LineTo).2.2.1 (by decide) (by decide)
      ⟨0, by decide, rfl⟩,
    ((win32_error_spec ⟨5, [72, 105]⟩ .LineTo).2.2.2 (by decide) (by decide)
      (by decide)).1 [72] rfl,
    ((win32_error_spec ⟨5, [0xD800, 65]⟩ .MoveToEx).2.2.2 (by decide)
      (by decide) (by decide)).2 .Utf16 rfl⟩

/-- C10: `take_user_data` with a mismatched type is not atomic — it clears
the platform slot, resets `has_user_data`, and destroys the payload before
returning the downcast-failure error; afterwards window teardown frees
nothing and no later `take_user_data` can recover the payload. -/
theorem take_user_data_mismatch (eo : ErrOracle) (t : Nat) (st : WindowState)
    (p : Payload) (hp : st.userData = some p) (ht : p.tag ≠ t) :
    Window.take_user_data eo t st =
      (⟨st.hwnd, none, false⟩,
        [.clearSlot st.hwnd, .dropPayload (some p)],
        .error (.StaticMsg "Unable to downcast user data")) ∧
      WindowState.dropTrace ⟨st.hwnd, none, false⟩ = [] ∧
      ∀ eo2 t2, ∃ e,
        (Window.take_user_data eo2 t2 ⟨st.hwnd, none, false⟩).2.2 =
          .error e := by
  refine ⟨?_, rfl, fun eo2 t2 => ?_⟩
  · unfold Window.take_user_data
    rw [hp]
    have hcond : ¬(some p = none ∧ eo.lastError ≠ 0) := by
      intro hc
      exact Option.some_ne_none p hc.1
    rw [if_neg hcond]
    dsimp only
    rw [if_neg ht]
  · unfold Window.take_user_data
    by_cases hc : (none : Option Payload) = none ∧ eo2.lastError ≠ 0
    · rw [if_pos hc]
      exact ⟨_, rfl⟩
    · rw [if_neg hc]
      exact ⟨_, rfl⟩

/-- Witness for C10: an attached `i32`-tagged payload taken at a different
type tag. -/
theorem take_user_data_mismatch_witness :
    (⟨5, some ⟨1, 42⟩, true⟩ : WindowState).userData = some ⟨1, 42⟩ ∧
      (Payload.mk 1 42).tag ≠ 2 ∧
      Window.take_user_data ⟨0, []⟩ 2 ⟨5, some ⟨1, 42⟩, true⟩ =
        (⟨5, none, false⟩,
          [.clearSlot 5, .dropPayload (some ⟨1, 42⟩)],
          .error (.StaticMsg "Unable to downcast user data")) ∧
      WindowState.dropTrace ⟨5, none, false⟩ = [] :=
  ⟨rfl, by decide,
    (take_user_data_mismatch ⟨0, []⟩ 2 ⟨5, some ⟨1, 42⟩, true⟩ ⟨1, 42⟩
      rfl (by decide)).1,
    (take_user_data_mismatch ⟨0, []⟩ 2 ⟨5, some ⟨1, 42⟩, true⟩ ⟨1, 42⟩
      rfl (by decide)).2.1⟩

end Porcupine
